import Mathlib

/-!
Shallow embedding of the story-generation backend layer
(src/generators/base.py, llm_generator.py, loader.py).

Modelling conventions:
- Python dicts with a fixed key set become structures of Option fields;
  a dict .get with a default becomes Option.getD.
- os.environ becomes an association list from variable names to values.
- The availability of the optional transport libraries (openai,
  google-generativeai, httpx) becomes a record of Booleans fixed when
  the module is loaded.
- Python exceptions become an Except error channel; the distinct
  exception classes raised by this layer become the constructors of
  PyError, and str(e) of such an exception is its message field.
- The outbound transport calls (HTTP POST plus raise_for_status plus
  json decoding, and the SDK calls) are oracles: functions from the
  request payload this layer builds to an outcome, packaged in World.
  A World also carries the two wall-clock readings taken by generate.
- JSON replies are modelled by the Json inductive; the top level of a
  decoded reply is a JSON object, i.e. a list of key-value pairs.
-/

/-- Availability of the optional transport libraries, decided by the
module-level import attempts in llm_generator.py. -/
structure Libs where
  openai : Bool
  gemini : Bool
  httpx : Bool
deriving DecidableEq

/-- The process environment, as read by os.getenv. -/
abbrev Env := List (String × String)

/-- JSON values, for the bodies decoded from HTTP replies. -/
inductive Json where
  | null : Json
  | str (s : String) : Json
  | num (n : Int) : Json
  | arr (xs : List Json) : Json
  | obj (kvs : List (String × Json)) : Json

/-- Python subscript data[k] on a JSON value: KeyError when the key is
missing, TypeError when the value is not an object. -/
def Json.key (j : Json) (k : String) : Except String Json :=
  match j with
  | .obj kvs =>
    match kvs.lookup k with
    | some v => .ok v
    | none => .error ("KeyError: " ++ k)
  | _ => .error "TypeError: value is not subscriptable"

/-- Python subscript data[0] on a JSON value: IndexError on an empty
array, TypeError when the value is not an array. -/
def Json.idx0 (j : Json) : Except String Json :=
  match j with
  | .arr (x :: _) => .ok x
  | .arr [] => .error "IndexError: list index out of range"
  | _ => .error "TypeError: value is not subscriptable"

/-- The generation request (input_data).  The structured mapping fields
(blueprint, characters, story_arc) are modelled by the text they render
to inside an f-string; none models a field that is absent or an empty
mapping (both falsy in Python, hence indistinguishable to this layer). -/
structure Request where
  user_input : String := ""
  blueprint : Option String := none
  characters : Option String := none
  story_arc : Option String := none
  chapter_ids : Option (List Int) := none

/-- A chat message, as built by build_messages. -/
structure Message where
  role : String
  content : String

/-- The result dict returned by a successful generate call.  The
metadata sub-dict holds the single key type, kept here as
metadata_type. -/
structure GenResult where
  generated_content : Json
  model : String
  mode : String
  generation_time : Int
  metadata_type : String

/-- The exception classes this layer raises (base.py and loader.py).
str(e) of each is its message. -/
inductive PyError where
  | generationError (msg : String) : PyError
  | generatorConfigError (msg : String) : PyError
  | runtimeError (msg : String) : PyError
deriving DecidableEq

/-- str(e) for the exceptions of this layer. -/
def PyError.str : PyError → String
  | .generationError m => m
  | .generatorConfigError m => m
  | .runtimeError m => m

/-- Outcomes of the outbound transport calls, as oracles from the
payload this layer builds.  An .error carries str of the exception the
transport raised (connection error, raise_for_status, SDK failure); an
.ok carries the decoded JSON object, or for the SDK paths the content
text the SDK already extracted.  t0 and t1 are the two time.time()
readings taken inside generate, in the order taken. -/
structure World where
  ollama_http : String → Except String (List (String × Json))
  sdk_chat : List Message → Except String String
  gemini_sdk : String → Except String String
  zhipu_http : List Message → Except String (List (String × Json))
  t0 : Int
  t1 : Int

/-- The local block of the generator config (loader key: type, url,
model). -/
structure LocalCfg where
  type : Option String := none
  url : Option String := none
  model : Option String := none
deriving DecidableEq

/-- The cloud block of the generator config (provider, api_key_env,
model, endpoint). -/
structure CloudCfg where
  provider : Option String := none
  api_key_env : Option String := none
  model : Option String := none
  endpoint : Option String := none
deriving DecidableEq

/-- The generator section of the configuration.  The source key of the
loc field is the word local, which Lean reserves. -/
structure Config where
  mode : Option String := none
  loc : Option LocalCfg := none
  cloud : Option CloudCfg := none
deriving DecidableEq

/-- The whole configuration file: a top-level generator key. -/
structure RootConfig where
  generator : Option Config := none
deriving DecidableEq

/-- The state of an LLMGenerator instance after construction.  Fields
that Python assigns only on some paths are Options; has_client records
whether the client attribute was assigned; inited is the source field
named initialized. -/
structure LLMGenerator where
  mode : String
  available : Bool
  inited : Bool
  model : String
  local_type : Option String := none
  local_url : Option String := none
  api_endpoint : Option String := none
  use_chat_format : Option Bool := none
  provider : Option String := none
  api_key : Option String := none
  endpoint : Option String := none
  has_client : Bool := false
deriving DecidableEq

/-- StoryGenerator._build_prompt (base.py): the prompt_parts list built
by the conditional appends, before joining. -/
def StoryGenerator.prompt_parts (d : Request) : List String :=
  let p0 := ["You are a creative story writer for an interactive story game.",
             "Generate engaging, immersive story content based on the following:",
             ""]
  let p1 := if d.user_input ≠ "" then p0 ++ ["User Request: " ++ d.user_input, ""] else p0
  let p2 := match d.blueprint with
    | some b => p1 ++ ["Story Blueprint: " ++ b, ""]
    | none => p1
  let p3 := match d.characters with
    | some c => p2 ++ ["Characters: " ++ c, ""]
    | none => p2
  let p4 := match d.story_arc with
    | some s => p3 ++ ["Story Arc: " ++ s, ""]
    | none => p3
  p4 ++ ["Generated Story:"]

/-- StoryGenerator._build_prompt (base.py): newline join of the parts. -/
def StoryGenerator.build_prompt (d : Request) : String :=
  String.intercalate "\n" (StoryGenerator.prompt_parts d)

/-- LLMGenerator._build_prompt (llm_generator.py): the override used by
the non-chat transports; sequential string concatenation. -/
def LLMGenerator.build_prompt (d : Request) : String :=
  let p := "You are a creative story writer.\n\n"
  let p := p ++ ("User Request: " ++ d.user_input ++ "\n\n")
  let p := match d.blueprint with
    | some b => p ++ ("Blueprint: " ++ b ++ "\n\n")
    | none => p
  p ++ "Generate engaging story content:"

/-- LLMGenerator._build_messages (llm_generator.py). -/
def LLMGenerator.build_messages (d : Request) : List Message :=
  let content := "Generate engaging story content based on:\n\n"
  let content := content ++ ("User Request: " ++ d.user_input ++ "\n\n")
  let content := match d.blueprint with
    | some b => content ++ ("Blueprint: " ++ b ++ "\n\n")
    | none => content
  [{ role := "system",
     content := "You are a creative story writer for an interactive story game." },
   { role := "user", content := content }]

/-- LLMGenerator._init_local: unconditionally marks the generator
available and initialized; the client attribute is assigned only on the
OpenAI-compatible sub-path and only when the openai library imported. -/
def LLMGenerator.init_local (libs : Libs) (cfg : LocalCfg) (mode : String) : LLMGenerator :=
  let t := cfg.type.getD "ollama"
  let u := cfg.url.getD "http://localhost:11434"
  let m := cfg.model.getD "qwen2.5:7b"
  { mode := mode, available := true, inited := true, model := m,
    local_type := some t, local_url := some u,
    api_endpoint := some (if t = "ollama" then u ++ "/api/generate"
                          else u ++ "/v1/chat/completions"),
    use_chat_format := some (t != "ollama"),
    has_client := (t != "ollama") && libs.openai }

/-- LLMGenerator._init_cloud: resolves the API key from the environment
variable named by api_key_env; a falsy key (unset or empty) returns
early, leaving the adapter unavailable; otherwise the provider branch
may raise GeneratorConfigError for a missing library. -/
def LLMGenerator.init_cloud (libs : Libs) (env : Env) (cfg : CloudCfg) (mode : String) :
    Except PyError LLMGenerator :=
  let p := cfg.provider.getD "openai"
  let keyEnv := cfg.api_key_env.getD "OPENAI_API_KEY"
  let m := cfg.model.getD "gpt-4o-mini"
  let key := env.lookup keyEnv
  let base : LLMGenerator :=
    { mode := mode, available := false, inited := false, model := m,
      provider := some p, api_key := key, endpoint := cfg.endpoint }
  if key.getD "" = "" then .ok base
  else
    if p = "openai" then
      if libs.openai = false then .error (.generatorConfigError "openai library not installed")
      else .ok { base with available := true, inited := true, has_client := true }
    else if p = "gemini" then
      if libs.gemini = false then
        .error (.generatorConfigError "google-generativeai not installed")
      else .ok { base with available := true, inited := true, has_client := true }
    else if p = "zhipu" then
      if libs.httpx = false then .error (.generatorConfigError "httpx not installed")
      else .ok { base with available := true, inited := true }
    else .ok { base with available := true, inited := true }

/-- LLMGenerator.__init__: reads the mode discriminator (default cloud)
and dispatches to the local or cloud initializer. -/
def LLMGenerator.new (libs : Libs) (env : Env) (config : Config) :
    Except PyError LLMGenerator :=
  let mode := config.mode.getD "cloud"
  if mode = "local" then .ok (LLMGenerator.init_local libs (config.loc.getD {}) mode)
  else LLMGenerator.init_cloud libs env (config.cloud.getD {}) mode

/-- LLMGenerator._generate_ollama: explicit httpx guard, then POST the
built prompt; on success read the response field of the JSON object
with default empty string. -/
def LLMGenerator.generate_ollama (libs : Libs) (_g : LLMGenerator) (d : Request) (w : World) :
    Except String Json :=
  if libs.httpx = false then .error "httpx not installed"
  else
    match w.ollama_http (LLMGenerator.build_prompt d) with
    | .error e => .error e
    | .ok obj => .ok ((obj.lookup "response").getD (.str ""))

/-- LLMGenerator._generate_openai_compatible: uses the client attribute,
which raises AttributeError when never assigned; otherwise an SDK chat
call on the built messages. -/
def LLMGenerator.generate_openai_compatible (g : LLMGenerator) (d : Request) (w : World) :
    Except String Json :=
  if g.has_client = false then .error "LLMGenerator object has no attribute client"
  else
    match w.sdk_chat (LLMGenerator.build_messages d) with
    | .error e => .error e
    | .ok s => .ok (.str s)

/-- LLMGenerator._generate_local: sub-dispatch on local_type. -/
def LLMGenerator.generate_local (libs : Libs) (g : LLMGenerator) (d : Request) (w : World) :
    Except String Json :=
  if g.local_type = some "ollama" then LLMGenerator.generate_ollama libs g d w
  else LLMGenerator.generate_openai_compatible g d w

/-- LLMGenerator._generate_openai: SDK chat-completion call via the
client attribute. -/
def LLMGenerator.generate_openai (g : LLMGenerator) (d : Request) (w : World) :
    Except String Json :=
  if g.has_client = false then .error "LLMGenerator object has no attribute client"
  else
    match w.sdk_chat (LLMGenerator.build_messages d) with
    | .error e => .error e
    | .ok s => .ok (.str s)

/-- LLMGenerator._generate_gemini: single-shot generate call on the
client over the built prompt. -/
def LLMGenerator.generate_gemini (g : LLMGenerator) (d : Request) (w : World) :
    Except String Json :=
  if g.has_client = false then .error "LLMGenerator object has no attribute client"
  else
    match w.gemini_sdk (LLMGenerator.build_prompt d) with
    | .error e => .error e
    | .ok s => .ok (.str s)

/-- The subscript chain data choices 0 message content performed by
_generate_zhipu on the decoded reply. -/
def LLMGenerator.zhipu_extract (data : List (String × Json)) : Except String Json :=
  match data.lookup "choices" with
  | none => .error "KeyError: choices"
  | some choices =>
    match choices.idx0 with
    | .error e => .error e
    | .ok c0 =>
      match c0.key "message" with
      | .error e => .error e
      | .ok msg => msg.key "content"

/-- LLMGenerator._generate_zhipu: the httpx module name is undefined
when the import failed (NameError inside the call); otherwise a raw
HTTP POST of the built messages and the subscript chain on the reply. -/
def LLMGenerator.generate_zhipu (libs : Libs) (_g : LLMGenerator) (d : Request) (w : World) :
    Except String Json :=
  if libs.httpx = false then .error "NameError: name httpx is not defined"
  else
    match w.zhipu_http (LLMGenerator.build_messages d) with
    | .error e => .error e
    | .ok data => LLMGenerator.zhipu_extract data

/-- LLMGenerator._generate_cloud: sub-dispatch on provider, with the
unsupported-provider raise on the final else. -/
def LLMGenerator.generate_cloud (libs : Libs) (g : LLMGenerator) (d : Request) (w : World) :
    Except String Json :=
  let p := g.provider.getD ""
  if p = "openai" then LLMGenerator.generate_openai g d w
  else if p = "gemini" then LLMGenerator.generate_gemini g d w
  else if p = "zhipu" then LLMGenerator.generate_zhipu libs g d w
  else .error ("Unsupported provider: " ++ p)

/-- The body of the try block of LLMGenerator.generate: the mode
dispatch, yielding the normalized content or str of the exception
raised inside the block. -/
def LLMGenerator.generate_body (libs : Libs) (g : LLMGenerator) (d : Request) (w : World) :
    Except String Json :=
  if g.mode = "local" then LLMGenerator.generate_local libs g d w
  else LLMGenerator.generate_cloud libs g d w

/-- LLMGenerator.generate: availability guard, then the try block; any
exception inside the block is re-raised as a single GenerationError
embedding str of the cause; on success the result dict is built from
the content, the fixed configuration and the two clock readings. -/
def LLMGenerator.generate (libs : Libs) (g : LLMGenerator) (d : Request) (w : World) :
    Except PyError GenResult :=
  if g.available = false then .error (.generationError "LLM Generator not available")
  else
    match LLMGenerator.generate_body libs g d w with
    | .ok content =>
      .ok { generated_content := content, model := g.model, mode := g.mode,
            generation_time := w.t1 - w.t0,
            metadata_type := if g.mode = "local" then g.local_type.getD ""
                             else g.provider.getD "" }
    | .error e => .error (.generationError ("Generation failed: " ++ e))

/-- LLMGenerator.get_mode. -/
def LLMGenerator.get_mode (g : LLMGenerator) : String := g.mode

/-- The dict returned by get_model_info. -/
structure ModelInfo where
  name : String
  version : Option String
  provider : String
  parameters : List (String × String)
deriving DecidableEq

/-- LLMGenerator.get_model_info. -/
def LLMGenerator.get_model_info (g : LLMGenerator) : ModelInfo :=
  if g.mode = "local" then
    { name := g.model, version := none, provider := g.local_type.getD "",
      parameters := [("url", g.local_url.getD "")] }
  else
    { name := g.model, version := none, provider := g.provider.getD "",
      parameters := [] }

/-- LLMGenerator.health_check: returns the cached availability flag. -/
def LLMGenerator.health_check (g : LLMGenerator) : Bool := g.available

/-- StoryGenerator.warmup default: no-op returning true. -/
def LLMGenerator.warmup (_g : LLMGenerator) : Bool := true

/-- StoryGenerator.is_initialized. -/
def LLMGenerator.is_init (g : LLMGenerator) : Bool := g.inited

/-- The state of a GeneratorLoader instance. -/
structure GeneratorLoader where
  config : RootConfig
  generator : Option LLMGenerator
deriving DecidableEq

/-- GeneratorLoader._default_config. -/
def GeneratorLoader.default_config : RootConfig :=
  { generator := some
      { mode := some "local",
        loc := some { type := some "ollama", url := some "http://localhost:11434",
                      model := some "qwen2.5:7b" },
        cloud := some { provider := some "openai", api_key_env := some "OPENAI_API_KEY",
                        model := some "gpt-4o-mini" } } }

/-- GeneratorLoader._load_config: a missing file yields the built-in
default; a present file yields its parsed content. -/
def GeneratorLoader.resolve_config (file : Option RootConfig) : RootConfig :=
  file.getD GeneratorLoader.default_config

/-- The generator sub-config handed to the adapter constructor. -/
def GeneratorLoader.gen_config (file : Option RootConfig) : Config :=
  (GeneratorLoader.resolve_config file).generator.getD {}

/-- GeneratorLoader.__init__ together with _load_generator: adapter
construction failures are re-raised as RuntimeError naming the cause;
an adapter that reports itself unavailable aborts construction with the
no-generator RuntimeError. -/
def GeneratorLoader.new (libs : Libs) (env : Env) (file : Option RootConfig) :
    Except PyError GeneratorLoader :=
  let config := GeneratorLoader.resolve_config file
  match LLMGenerator.new libs env (GeneratorLoader.gen_config file) with
  | .ok gen =>
    if gen.available then .ok { config := config, generator := some gen }
    else .error (.runtimeError "No generator available. Check your configuration.")
  | .error e => .error (.runtimeError ("Failed to load generator: " ++ e.str))

/-- GeneratorLoader.generate: the no-generator guard, then pass-through. -/
def GeneratorLoader.generate (libs : Libs) (l : GeneratorLoader) (d : Request) (w : World) :
    Except PyError GenResult :=
  match l.generator with
  | none => .error (.runtimeError "No generator loaded")
  | some g => LLMGenerator.generate libs g d w

/-- GeneratorLoader.get_mode: the no-generator guard, then pass-through. -/
def GeneratorLoader.get_mode (l : GeneratorLoader) : String :=
  match l.generator with
  | none => "none"
  | some g => g.get_mode

/-- GeneratorLoader.get_model_info: none models the empty dict returned
by the no-generator guard. -/
def GeneratorLoader.get_model_info (l : GeneratorLoader) : Option ModelInfo :=
  match l.generator with
  | none => none
  | some g => some g.get_model_info

/-- GeneratorLoader.health_check. -/
def GeneratorLoader.health_check (l : GeneratorLoader) : Bool :=
  match l.generator with
  | none => false
  | some g => g.health_check

/-- GeneratorLoader.is_fallback: constant false. -/
def GeneratorLoader.is_fallback (_l : GeneratorLoader) : Bool := false

/-! Fixtures: concrete library records, environments, worlds, configs
and adapter states used to evaluate the definitions on closed inputs. -/

/-- No optional transport library imported. -/
def libsNone : Libs := { openai := false, gemini := false, httpx := false }

/-- Every optional transport library imported. -/
def libsAll : Libs := { openai := true, gemini := true, httpx := true }

/-- A world whose transports all fail with a connection error. -/
def worldDown : World :=
  { ollama_http := fun _ => .error "connection refused",
    sdk_chat := fun _ => .error "connection refused",
    gemini_sdk := fun _ => .error "connection refused",
    zhipu_http := fun _ => .error "connection refused",
    t0 := 0, t1 := 1 }

/-- A world whose transports succeed; the ollama reply carries a
response field. -/
def worldOk : World :=
  { ollama_http := fun _ => .ok [("response", Json.str "Once upon a time")],
    sdk_chat := fun _ => .ok "Once upon a time",
    gemini_sdk := fun _ => .ok "Once upon a time",
    zhipu_http := fun _ => .ok [("choices", Json.arr [Json.obj [("message", Json.obj [("content", Json.str "Once upon a time")])]])],
    t0 := 10, t1 := 12 }

/-- A world whose HTTP transports succeed with an empty JSON object. -/
def worldEmptyObj : World :=
  { ollama_http := fun _ => .ok [],
    sdk_chat := fun _ => .ok "ok",
    gemini_sdk := fun _ => .ok "ok",
    zhipu_http := fun _ => .ok [],
    t0 := 0, t1 := 2 }

/-- A local adapter built without any transport library present. -/
def gLocalNoHttpx : LLMGenerator := LLMGenerator.init_local libsNone {} "local"

/-- A local adapter built with every transport library present. -/
def gLocalAll : LLMGenerator := LLMGenerator.init_local libsAll {} "local"

/-- A cloud zhipu adapter state as produced by construction with a key. -/
def gZhipu : LLMGenerator :=
  { mode := "cloud", available := true, inited := true, model := "glm-4",
    provider := some "zhipu", api_key := some "k" }

/-- A cloud config whose api_key_env names a variable the environment
does not hold. -/
def cfgCloudNoKey : Config :=
  { mode := some "cloud", cloud := some { api_key_env := some "STORYNET_KEY" } }

/-- A minimal local-mode config. -/
def cfgLocalDefault : Config := { mode := some "local" }

/-- A cloud zhipu config whose key variable is set. -/
def cfgZhipu : Config :=
  { mode := some "cloud",
    cloud := some { provider := some "zhipu", api_key_env := some "ZKEY" } }

/-- A configuration file demanding the zhipu provider. -/
def rootZhipu : RootConfig := { generator := some cfgZhipu }

/-- An environment holding the zhipu key. -/
def envZhipu : Env := [("ZKEY", "secret")]

/-- The result of the successful generate call of the C4 witness. -/
def rOk : GenResult :=
  { generated_content := Json.str "Once upon a time", model := "qwen2.5:7b",
    mode := "local", generation_time := 2, metadata_type := "ollama" }

/-- The adapter the loader builds from the built-in default config. -/
def gLocalDefaultAll : LLMGenerator :=
  LLMGenerator.init_local libsAll ((GeneratorLoader.gen_config none).loc.getD {}) "local"

/-- The loader state built from the built-in default config. -/
def loaderDefaultAll : GeneratorLoader :=
  { config := GeneratorLoader.default_config, generator := some gLocalDefaultAll }

/-- The operations callable on a constructed adapter. -/
inductive Op where
  | op_generate (d : Request) (w : World) : Op
  | op_health_check : Op
  | op_get_model_info : Op
  | op_warmup : Op
  | op_get_mode : Op

/-- The state transition of one method call on a constructed adapter:
none of generate, health_check, get_model_info, warmup or get_mode
contains an attribute assignment in the source, so each call leaves the
state unchanged. -/
def LLMGenerator.step (g : LLMGenerator) : Op → LLMGenerator
  | .op_generate _ _ => g
  | .op_health_check => g
  | .op_get_model_info => g
  | .op_warmup => g
  | .op_get_mode => g

/-- A labelled section of the spec-side prompt shape: present fields
render as a labelled line plus a blank line, absent fields render
nothing. -/
def section_of (label : String) (v : Option String) : List String :=
  match v with
  | some s => [label ++ s, ""]
  | none => []

/-- Python truthiness of a string field: empty counts as absent. -/
def non_empty (s : String) : Option String :=
  if s = "" then none else some s

/-! Helper lemmas shared by several claims. -/

theorem str_append_assoc (a b c : String) : a ++ b ++ c = a ++ (b ++ c) := by
  apply String.ext
  simp [String.data_append, List.append_assoc]

theorem LLMGenerator.new_mode_eq (libs : Libs) (env : Env) (cfg : Config)
    (g : LLMGenerator) (hg : LLMGenerator.new libs env cfg = .ok g) :
    g.mode = cfg.mode.getD "cloud" := by
  simp only [LLMGenerator.new, LLMGenerator.init_cloud, LLMGenerator.init_local] at hg
  repeat' split at hg
  all_goals (cases hg; try rfl)

/-- C1: once the availability check has passed, any exception raised
inside the try block of generate (transport error, HTTP error status,
SDK exception, malformed response, explicit raise) surfaces as exactly
one GenerationError whose message embeds str of the original exception,
and the failing call returns no result. -/
theorem C1_generate_wraps_every_in_call_error (libs : Libs) (g : LLMGenerator)
    (d : Request) (w : World) (e : String)
    (hav : g.available = true)
    (hb : LLMGenerator.generate_body libs g d w = .error e) :
    LLMGenerator.generate libs g d w =
      .error (.generationError ("Generation failed: " ++ e)) := by
  simp [LLMGenerator.generate, hav, hb]

/-- C1 witness: a local ollama adapter without httpx; the failure
raised inside the try block is wrapped into the single GenerationError. -/
theorem C1_witness :
    LLMGenerator.generate libsNone gLocalNoHttpx {} worldDown =
      .error (.generationError "Generation failed: httpx not installed") :=
  C1_generate_wraps_every_in_call_error libsNone gLocalNoHttpx {} worldDown
    "httpx not installed" rfl rfl

/-- C3: a cloud-mode config whose api_key_env names an unset variable
yields an adapter without raising, the adapter is unavailable, and
every generate call on it fails with a GenerationError and with no
other exception type. -/
theorem C3_missing_credential_degrades_silently (libs : Libs) (env : Env) (cfg : Config)
    (hm : cfg.mode.getD "cloud" ≠ "local")
    (hk : env.lookup ((cfg.cloud.getD {}).api_key_env.getD "OPENAI_API_KEY") = none) :
    ∃ g, LLMGenerator.new libs env cfg = .ok g ∧ g.available = false ∧
      ∀ d w, LLMGenerator.generate libs g d w =
        .error (.generationError "LLM Generator not available") := by
  refine ⟨{ mode := cfg.mode.getD "cloud", available := false, inited := false,
            model := (cfg.cloud.getD {}).model.getD "gpt-4o-mini",
            provider := some ((cfg.cloud.getD {}).provider.getD "openai"),
            api_key := none, endpoint := (cfg.cloud.getD {}).endpoint }, ?_, rfl, ?_⟩
  · simp [LLMGenerator.new, LLMGenerator.init_cloud, hm, hk]
  · intro d w
    simp [LLMGenerator.generate]

/-- C3 witness: the empty environment and a cloud config naming a
variable that is unset. -/
theorem C3_witness :
    ∃ g, LLMGenerator.new libsAll [] cfgCloudNoKey = .ok g ∧ g.available = false ∧
      ∀ d w, LLMGenerator.generate libsAll g d w =
        .error (.generationError "LLM Generator not available") :=
  C3_missing_credential_degrades_silently libsAll [] cfgCloudNoKey (by decide) rfl

/-- C4: every successful generate call returns a result whose
generation_time is non-negative (the two clock readings being taken in
order) and whose mode equals the adapter mode fixed at construction,
for every request and every transport behaviour. -/
theorem C4_success_result_time_nonneg_mode_fixed (libs : Libs) (env : Env)
    (cfg : Config) (g : LLMGenerator) (d : Request) (w : World) (r : GenResult)
    (hg : LLMGenerator.new libs env cfg = .ok g)
    (hr : LLMGenerator.generate libs g d w = .ok r)
    (ht : w.t0 ≤ w.t1) :
    0 ≤ r.generation_time ∧ r.mode = g.mode ∧ g.mode = cfg.mode.getD "cloud" := by
  have hmode := LLMGenerator.new_mode_eq libs env cfg g hg
  unfold LLMGenerator.generate at hr
  split at hr
  · cases hr
  · split at hr
    · cases hr
      exact ⟨sub_nonneg.mpr ht, rfl, hmode⟩
    · cases hr

/-- C4 witness: a successful local ollama call with clock readings 10
and 12. -/
theorem C4_witness :
    0 ≤ rOk.generation_time ∧ rOk.mode = gLocalAll.mode ∧
      gLocalAll.mode = cfgLocalDefault.mode.getD "cloud" :=
  C4_success_result_time_nonneg_mode_fixed libsAll [] cfgLocalDefault gLocalAll
    {} worldOk rOk rfl rfl (by decide)

/-- C5: Loader construction fails with a fatal RuntimeError naming the
cause whenever adapter construction raises or the adapter reports
itself unavailable; and whenever construction succeeds a generator is
loaded, so the no-generator guards of generate, get_mode,
get_model_info and health_check are unreachable and the loader is a
pure pass-through. -/
theorem C5_loader_fatal_or_pass_through (libs : Libs) (env : Env)
    (file : Option RootConfig) :
    (∀ e, LLMGenerator.new libs env (GeneratorLoader.gen_config file) = .error e →
      GeneratorLoader.new libs env file =
        .error (.runtimeError ("Failed to load generator: " ++ e.str))) ∧
    (∀ g, LLMGenerator.new libs env (GeneratorLoader.gen_config file) = .ok g →
      g.available = false →
      GeneratorLoader.new libs env file =
        .error (.runtimeError "No generator available. Check your configuration.")) ∧
    (∀ l, GeneratorLoader.new libs env file = .ok l →
      ∃ g, l.generator = some g ∧
        l.get_mode = g.get_mode ∧
        l.get_model_info = some g.get_model_info ∧
        l.health_check = g.health_check ∧
        ∀ d w, GeneratorLoader.generate libs l d w = LLMGenerator.generate libs g d w) := by
  refine ⟨?_, ?_, ?_⟩
  · intro e he
    simp [GeneratorLoader.new, he]
  · intro g hok hun
    simp [GeneratorLoader.new, hok, hun]
  · intro l hl
    simp only [GeneratorLoader.new] at hl
    split at hl
    · rename_i gen heq
      split at hl
      · cases hl
        exact ⟨gen, rfl, rfl, rfl, rfl, fun d w => rfl⟩
      · cases hl
    · cases hl

/-- C5 witness: a config demanding the zhipu provider with the key set
but httpx missing makes adapter construction raise and the loader fail
fatally naming the cause. -/
theorem C5_witness :
    GeneratorLoader.new libsNone envZhipu (some rootZhipu) =
      .error (.runtimeError "Failed to load generator: httpx not installed") :=
  (C5_loader_fatal_or_pass_through libsNone envZhipu (some rootZhipu)).1
    (.generatorConfigError "httpx not installed") rfl

/-- C6: when the configuration file is absent the Loader substitutes
the built-in default configuration (local mode, ollama backend) without
throwing, and get_mode on the constructed Loader returns local. -/
theorem C6_missing_config_file_defaults_to_local (libs : Libs) (env : Env) :
    ∃ l, GeneratorLoader.new libs env none = .ok l ∧
      l.config = GeneratorLoader.default_config ∧ l.get_mode = "local" :=
  ⟨_, rfl, rfl, rfl⟩

/-- C7: Loader construction and the observers get_mode and
get_model_info are deterministic in the configuration file, the
environment and the imported libraries: two loaders built from the
same inputs report equal tags and equal model-info mappings. -/
theorem C7_same_config_same_observers (libs : Libs) (env : Env)
    (file : Option RootConfig) (l1 l2 : GeneratorLoader)
    (h1 : GeneratorLoader.new libs env file = .ok l1)
    (h2 : GeneratorLoader.new libs env file = .ok l2) :
    l1.get_mode = l2.get_mode ∧ l1.get_model_info = l2.get_model_info := by
  have h : l1 = l2 := Except.ok.inj (h1.symm.trans h2)
  subst h
  exact ⟨rfl, rfl⟩

/-- C7 witness: two constructions from the absent file in the same
environment. -/
theorem C7_witness :
    loaderDefaultAll.get_mode = loaderDefaultAll.get_mode ∧
      loaderDefaultAll.get_model_info = loaderDefaultAll.get_model_info :=
  C7_same_config_same_observers libsAll [] none loaderDefaultAll loaderDefaultAll rfl rfl

/-- C8: the local-vs-cloud discriminator is fixed at construction (it
equals the configured mode) and no sequence of subsequent operations
(generate, health_check, get_model_info, warmup, get_mode) changes it,
so get_mode returns the same tag throughout the adapter lifetime. -/
theorem C8_mode_fixed_for_lifetime (libs : Libs) (env : Env) (cfg : Config)
    (g : LLMGenerator) (hg : LLMGenerator.new libs env cfg = .ok g)
    (ops : List Op) :
    (ops.foldl LLMGenerator.step g).get_mode = g.get_mode ∧
    g.get_mode = cfg.mode.getD "cloud" := by
  constructor
  · have hfold : ∀ (os : List Op) (h : LLMGenerator), os.foldl LLMGenerator.step h = h := by
      intro os
      induction os with
      | nil => intro h; rfl
      | cons a t ih =>
        intro h
        rw [List.foldl_cons]
        have ha : LLMGenerator.step h a = h := by cases a <;> rfl
        rw [ha]
        exact ih h
    rw [hfold]
  · exact LLMGenerator.new_mode_eq libs env cfg g hg

/-- C8 witness: a concrete operation sequence on the default local
adapter leaves the reported mode equal to the configured tag. -/
theorem C8_witness :
    (([Op.op_get_mode, Op.op_warmup, Op.op_generate {} worldOk,
       Op.op_health_check, Op.op_get_model_info].foldl LLMGenerator.step
        gLocalAll).get_mode = gLocalAll.get_mode) ∧
    gLocalAll.get_mode = cfgLocalDefault.mode.getD "cloud" :=
  C8_mode_fixed_for_lifetime libsAll [] cfgLocalDefault gLocalAll rfl
    [Op.op_get_mode, Op.op_warmup, Op.op_generate {} worldOk,
     Op.op_health_check, Op.op_get_model_info]

/-- C9: local-mode construction marks the adapter available and
initialized unconditionally, whatever transport libraries are
installed; a missing local transport dependency (httpx on the ollama
path, openai on the OpenAI-compatible path) never fails construction
and surfaces only at generate time, as a GenerationError. -/
theorem C9_local_init_unconditional (libs : Libs) (env : Env) (cfg : Config)
    (hm : cfg.mode.getD "cloud" = "local") :
    ∃ g, LLMGenerator.new libs env cfg = .ok g ∧ g.available = true ∧ g.inited = true ∧
      (g.local_type = some "ollama" → libs.httpx = false → ∀ d w,
        LLMGenerator.generate libs g d w =
          .error (.generationError "Generation failed: httpx not installed")) ∧
      (g.local_type ≠ some "ollama" → libs.openai = false → ∀ d w,
        LLMGenerator.generate libs g d w =
          .error (.generationError
            "Generation failed: LLMGenerator object has no attribute client")) := by
  refine ⟨LLMGenerator.init_local libs (cfg.loc.getD {}) "local", ?_, rfl, rfl, ?_, ?_⟩
  · simp [LLMGenerator.new, hm]
  · intro hol hx d w
    have ht : (cfg.loc.getD {}).type.getD "ollama" = "ollama" := by
      simpa [LLMGenerator.init_local] using hol
    simp [LLMGenerator.generate, LLMGenerator.generate_body, LLMGenerator.generate_local,
          LLMGenerator.generate_ollama, LLMGenerator.init_local, ht, hx]
  · intro hol ho d w
    have ht : ¬ (cfg.loc.getD {}).type.getD "ollama" = "ollama" := by
      simpa [LLMGenerator.init_local] using hol
    simp [LLMGenerator.generate, LLMGenerator.generate_body, LLMGenerator.generate_local,
          LLMGenerator.generate_openai_compatible, LLMGenerator.init_local, ht, ho]

/-- C9 witness: a local-mode config built with no libraries present. -/
theorem C9_witness :
    ∃ g, LLMGenerator.new libsNone [] cfgLocalDefault = .ok g ∧
      g.available = true ∧ g.inited = true ∧
      (g.local_type = some "ollama" → libsNone.httpx = false → ∀ d w,
        LLMGenerator.generate libsNone g d w =
          .error (.generationError "Generation failed: httpx not installed")) ∧
      (g.local_type ≠ some "ollama" → libsNone.openai = false → ∀ d w,
        LLMGenerator.generate libsNone g d w =
          .error (.generationError
            "Generation failed: LLMGenerator object has no attribute client")) :=
  C9_local_init_unconditional libsNone [] cfgLocalDefault rfl

/-- C10: on the ollama path a success-status reply whose JSON object
lacks the response field does not fail: generate returns a successful
result whose generated content is the empty string; on the zhipu
HTTP-direct path a reply without the choices field raises and is
wrapped into a GenerationError. -/
theorem C10_missing_field_ollama_vs_zhipu :
    (∀ (libs : Libs) (g : LLMGenerator) (d : Request) (w : World)
        (obj : List (String × Json)),
      g.available = true → g.mode = "local" → g.local_type = some "ollama" →
      libs.httpx = true →
      w.ollama_http (LLMGenerator.build_prompt d) = .ok obj →
      obj.lookup "response" = none →
      LLMGenerator.generate libs g d w =
        .ok { generated_content := .str "", model := g.model, mode := g.mode,
              generation_time := w.t1 - w.t0,
              metadata_type := g.local_type.getD "" }) ∧
    (∀ (libs : Libs) (g : LLMGenerator) (d : Request) (w : World)
        (data : List (String × Json)),
      g.available = true → g.mode ≠ "local" → g.provider = some "zhipu" →
      libs.httpx = true →
      w.zhipu_http (LLMGenerator.build_messages d) = .ok data →
      data.lookup "choices" = none →
      LLMGenerator.generate libs g d w =
        .error (.generationError "Generation failed: KeyError: choices")) := by
  constructor
  · intro libs g d w obj hav hm hl hx hw ho
    simp [LLMGenerator.generate, LLMGenerator.generate_body, LLMGenerator.generate_local,
          LLMGenerator.generate_ollama, hav, hm, hl, hx, hw, ho]
  · intro libs g d w data hav hm hp hx hw hc
    simp [LLMGenerator.generate, LLMGenerator.generate_body, LLMGenerator.generate_cloud,
          LLMGenerator.generate_zhipu, LLMGenerator.zhipu_extract,
          hav, hm, hp, hx, hw, hc]

/-- C10 witness: both paths receiving an empty JSON object: the ollama
adapter succeeds with empty content, the zhipu adapter fails with the
wrapped KeyError. -/
theorem C10_witness :
    LLMGenerator.generate libsAll gLocalAll {} worldEmptyObj =
      .ok { generated_content := .str "", model := gLocalAll.model,
            mode := gLocalAll.mode,
            generation_time := worldEmptyObj.t1 - worldEmptyObj.t0,
            metadata_type := gLocalAll.local_type.getD "" } ∧
    LLMGenerator.generate libsAll gZhipu {} worldEmptyObj =
      .error (.generationError "Generation failed: KeyError: choices") :=
  ⟨C10_missing_field_ollama_vs_zhipu.1 libsAll gLocalAll {} worldEmptyObj []
      rfl rfl rfl rfl rfl rfl,
   C10_missing_field_ollama_vs_zhipu.2 libsAll gZhipu {} worldEmptyObj []
      rfl (by decide) rfl rfl rfl rfl⟩

/-- C2 counterexample: on the request with empty user_input and no
other fields, the LLMGenerator prompt-assembly override renders an
empty labelled User Request section, so the assembled prompt is not
only the fixed preamble and trailing cue. -/
theorem C2_counterexample :
    LLMGenerator.build_prompt {} =
      "You are a creative story writer.\n\n" ++ ("User Request: " ++ "" ++ "\n\n") ++
        "Generate engaging story content:" ∧
    LLMGenerator.build_prompt {} ≠
      "You are a creative story writer.\n\n" ++ "Generate engaging story content:" :=
  ⟨rfl, by decide⟩

/-- C2 amended: the base-class shared helper omits absent fields
entirely and renders present fields in the fixed order user request,
blueprint, characters, story arc, so the empty request yields only the
fixed preamble and trailing cue; the LLMGenerator override used by the
non-chat transports instead renders the User Request label
unconditionally, even for an empty user_input. -/
theorem C2_amended_prompt_assembly :
    (StoryGenerator.build_prompt {} =
      "You are a creative story writer for an interactive story game.\nGenerate engaging, immersive story content based on the following:\n\nGenerated Story:") ∧
    (∀ d : Request, StoryGenerator.prompt_parts d =
      ["You are a creative story writer for an interactive story game.",
       "Generate engaging, immersive story content based on the following:", ""]
      ++ section_of "User Request: " (non_empty d.user_input)
      ++ section_of "Story Blueprint: " d.blueprint
      ++ section_of "Characters: " d.characters
      ++ section_of "Story Arc: " d.story_arc
      ++ ["Generated Story:"]) ∧
    (∀ d : Request, ∃ rest, LLMGenerator.build_prompt d =
      "You are a creative story writer.\n\nUser Request: " ++ rest) := by
  refine ⟨rfl, ?_, ?_⟩
  · intro d
    rcases d with ⟨u, b, c, s, ci⟩
    by_cases hu : u = "" <;> cases b <;> cases c <;> cases s <;>
      simp [StoryGenerator.prompt_parts, section_of, non_empty, hu]
  · intro d
    cases hb : d.blueprint with
    | none =>
      refine ⟨d.user_input ++ ("\n\n" ++ "Generate engaging story content:"), ?_⟩
      show LLMGenerator.build_prompt d =
        "You are a creative story writer.\n\n" ++ "User Request: " ++
          (d.user_input ++ ("\n\n" ++ "Generate engaging story content:"))
      simp only [LLMGenerator.build_prompt, hb, str_append_assoc]
    | some bb =>
      refine ⟨d.user_input ++ ("\n\n" ++ (("Blueprint: " ++ bb ++ "\n\n") ++
        "Generate engaging story content:")), ?_⟩
      show LLMGenerator.build_prompt d =
        "You are a creative story writer.\n\n" ++ "User Request: " ++
          (d.user_input ++ ("\n\n" ++ (("Blueprint: " ++ bb ++ "\n\n") ++
            "Generate engaging story content:")))
      simp only [LLMGenerator.build_prompt, hb, str_append_assoc]
